import Mathlib

/-!
# PVGPU host backend — verification development

A shallow embedding of the host-side command-stream engine of the PVGPU
paravirtualized GPU bridge (Rust sources under `src/backend/src/`), together
with proofs about the transport, the command decoder, the replay engine, the
error classification of the service loop, and the presentation pipeline.

Modelling conventions:
* machine integers are `Nat`; all wire fields are `u32`/`u64` read
  little-endian from byte lists, so every value produced by a read is already
  `< 2^32` (resp. `< 2^64`) and no overflow arises in the modelled paths;
* byte slices (`&[u8]`) are `List Nat`;
* the native D3D11 API is an external collaborator (spec §1); native calls
  that only touch device/context state are modelled as succeeding, while the
  input validation performed *in this repository's code* before those calls is
  translated line by line;
* Rust `Result::Err(e)` values are represented by the inductive `CmdError`,
  one constructor per distinct error message produced by the modelled code,
  so that the string-matching error classifier of the service loop
  (`main.rs:254-281`) can be rendered structurally;
* a Rust panic (out-of-range slice index) is the `panicked` outcome.
-/

set_option maxRecDepth 10000

/-! ## Byte-level wire format (`protocol.rs`)

Records are `repr(C)`, little-endian, and are read with
`std::ptr::read_unaligned` from a `&[u8]`.  `readByte` returns 0 beyond the
end of the list (a read past the slice in Rust is reading adjacent ring
bytes; every concrete input in this file is full-length, so the default is
never exercised there). -/

abbrev Bytes := List Nat

def readByte (data : Bytes) (i : Nat) : Nat := data.getD i 0 % 256

def readU32 (data : Bytes) (off : Nat) : Nat :=
  readByte data off + 2 ^ 8 * readByte data (off + 1) +
    2 ^ 16 * readByte data (off + 2) + 2 ^ 24 * readByte data (off + 3)

def readU64 (data : Bytes) (off : Nat) : Nat :=
  readU32 data off + 2 ^ 32 * readU32 data (off + 4)

/-- Little-endian encoding of a `u32`, for building concrete wire records. -/
def encodeU32 (v : Nat) : Bytes :=
  [v % 256, v / 2 ^ 8 % 256, v / 2 ^ 16 % 256, v / 2 ^ 24 % 256]

/-- Encode a sequence of `u32` fields into the flat byte layout of a
`repr(C)` record. -/
def encodeU32s (vs : List Nat) : Bytes := (vs.map encodeU32).flatten

/-! ## Protocol constants (`protocol.rs`) -/

def PVGPU_CMD_HEADER_SIZE : Nat := 16

def PVGPU_CMD_CREATE_RESOURCE : Nat := 0x0001
def PVGPU_CMD_DESTROY_RESOURCE : Nat := 0x0002
def PVGPU_CMD_MAP_RESOURCE : Nat := 0x0003
def PVGPU_CMD_UNMAP_RESOURCE : Nat := 0x0004
def PVGPU_CMD_UPDATE_RESOURCE : Nat := 0x0005
def PVGPU_CMD_COPY_RESOURCE : Nat := 0x0006
def PVGPU_CMD_OPEN_RESOURCE : Nat := 0x0007

def PVGPU_CMD_SET_RENDER_TARGET : Nat := 0x0101
def PVGPU_CMD_SET_VIEWPORT : Nat := 0x0102
def PVGPU_CMD_SET_SCISSOR : Nat := 0x0103
def PVGPU_CMD_SET_BLEND_STATE : Nat := 0x0104
def PVGPU_CMD_SET_RASTERIZER_STATE : Nat := 0x0105
def PVGPU_CMD_SET_DEPTH_STENCIL : Nat := 0x0106
def PVGPU_CMD_SET_SHADER : Nat := 0x0107
def PVGPU_CMD_SET_SAMPLER : Nat := 0x0108
def PVGPU_CMD_SET_CONSTANT_BUFFER : Nat := 0x0109
def PVGPU_CMD_SET_VERTEX_BUFFER : Nat := 0x010A
def PVGPU_CMD_SET_INDEX_BUFFER : Nat := 0x010B
def PVGPU_CMD_SET_INPUT_LAYOUT : Nat := 0x010C
def PVGPU_CMD_SET_PRIMITIVE_TOPOLOGY : Nat := 0x010D
def PVGPU_CMD_SET_SHADER_RESOURCE : Nat := 0x010E

def PVGPU_CMD_DRAW : Nat := 0x0201
def PVGPU_CMD_DRAW_INDEXED : Nat := 0x0202
def PVGPU_CMD_DRAW_INSTANCED : Nat := 0x0203
def PVGPU_CMD_DRAW_INDEXED_INSTANCED : Nat := 0x0204
def PVGPU_CMD_DISPATCH : Nat := 0x0205
def PVGPU_CMD_CLEAR_RENDER_TARGET : Nat := 0x0206
def PVGPU_CMD_CLEAR_DEPTH_STENCIL : Nat := 0x0207

def PVGPU_CMD_CREATE_SHADER : Nat := 0x0030
def PVGPU_CMD_DESTROY_SHADER : Nat := 0x0031

def PVGPU_CMD_FENCE : Nat := 0x0301
def PVGPU_CMD_PRESENT : Nat := 0x0302
def PVGPU_CMD_FLUSH : Nat := 0x0303
def PVGPU_CMD_WAIT_FENCE : Nat := 0x0304
def PVGPU_CMD_RESIZE_BUFFERS : Nat := 0x0305

def PVGPU_ERROR_SUCCESS : Nat := 0x0000
def PVGPU_ERROR_INVALID_COMMAND : Nat := 0x0001
def PVGPU_ERROR_RESOURCE_NOT_FOUND : Nat := 0x0002
def PVGPU_ERROR_OUT_OF_MEMORY : Nat := 0x0003
def PVGPU_ERROR_SHADER_COMPILE : Nat := 0x0004
def PVGPU_ERROR_DEVICE_LOST : Nat := 0x0005
def PVGPU_ERROR_INVALID_PARAMETER : Nat := 0x0006
def PVGPU_ERROR_INTERNAL : Nat := 0x000C

/-! ## Shared-memory transport (`shmem.rs`) -/

/-- `ControlRegion::pending_bytes` (`protocol.rs:279-281`):
`producer_ptr().saturating_sub(consumer_ptr())`; `Nat` subtraction is
saturating. -/
def pending_bytes (producer consumer : Nat) : Nat := producer - consumer

/-- `ControlRegion::has_pending_commands` (`protocol.rs:273-276`). -/
def has_pending_commands (producer consumer : Nat) : Bool :=
  consumer < producer

/-- `SharedMemory::read_pending_commands` (`shmem.rs:169-186`).  Returns the
contiguous slice starting at `consumer % ring.length` of length
`min pending (ring.length - offset)` together with the pending byte count,
or `none` when nothing is pending.  (In Rust a zero ring size would fault at
the `%`; `Nat.mod` by zero is the identity and the resulting slice is
empty.) -/
def read_pending_commands (producer consumer : Nat) (ring : Bytes) :
    Option (Bytes × Nat) :=
  let pending := pending_bytes producer consumer
  if pending = 0 then none
  else
    let ringSize := ring.length
    let offset := consumer % ringSize
    let available := min pending (ringSize - offset)
    some ((ring.drop offset).take available, pending)

/-- `SharedMemory::advance_consumer` (`shmem.rs:189-194`): the (only)
host-side store to `consumer_ptr` writes `consumer_ptr + bytes`. -/
def advance_consumer (consumer bytes : Nat) : Nat := consumer + bytes

/-! ## D3D11 replay engine resource model (`d3d11.rs`)

The resource table is a growable slab keyed by id; we render it as an
association list with insert-replaces semantics.  Native COM objects are not
modelled; a `Buffer` carries its byte contents (`size` is
`contents.length`), a `Texture2D` carries the descriptor fields the code
stores (texel contents are native-side and untracked). -/

inductive D3D11Resource where
  | texture2D (width height format bindFlags : Nat) (hasSrv hasRtv : Bool)
  | buffer (contents : List Nat) (bindFlags : Nat)
  | vertexShader (bytecode : List Nat)
  | pixelShader
  | geometryShader
  | hullShader
  | domainShader
  | computeShader
  | renderTargetView
  | depthStencilView
  | shaderResourceView
  deriving DecidableEq, Repr

def slab_insert (slab : List (Nat × D3D11Resource)) (id : Nat)
    (r : D3D11Resource) : List (Nat × D3D11Resource) :=
  (id, r) :: slab.filter (fun p => p.1 != id)

def slab_get (slab : List (Nat × D3D11Resource)) (id : Nat) :
    Option D3D11Resource :=
  (slab.find? (fun p => p.1 == id)).map Prod.snd

def slab_remove (slab : List (Nat × D3D11Resource)) (id : Nat) :
    List (Nat × D3D11Resource) :=
  slab.filter (fun p => p.1 != id)

structure D3D11Renderer where
  resources : List (Nat × D3D11Resource)
  deriving DecidableEq, Repr

/-- Errors returned by the modelled code paths.  Each constructor stands for
one distinct `anyhow!` message of the source; the message is recorded here
because the service loop classifies errors by their text
(`main.rs:254-281`). -/
inductive CmdError where
  /-- "Command too small" (`command_processor.rs:56`) -/
  | cmdTooSmall
  /-- "Command size exceeds available data" (`command_processor.rs:64`) -/
  | cmdSizeExceeds
  /-- "SHADER_COMPILE:{id}" (`command_processor.rs`, CREATE_RESOURCE shader arms) -/
  | shaderCompile (id : Nat)
  /-- "Invalid texture dimensions" (`d3d11.rs:390`) -/
  | invalidTextureDims
  /-- "Texture dimensions exceed maximum" (`d3d11.rs:399`) -/
  | textureDimsExceedMax
  /-- "Invalid buffer size" (`d3d11.rs:510`) -/
  | invalidBufferSize
  /-- "Buffer size exceeds maximum" (`d3d11.rs:520`) -/
  | bufferSizeExceedsMax
  /-- "Shader bytecode is empty" (`d3d11.rs:590` and the five analogues) -/
  | shaderBytecodeEmpty
  /-- "CreateShader: bytecode_offset + bytecode_size exceeds heap bounds"
  (`command_processor.rs:790`) -/
  | createShaderHeapBounds
  /-- "UpdateResource: heap_offset + data_size exceeds heap bounds"
  (`command_processor.rs:441`) -/
  | updateHeapBounds
  /-- "UpdateSubresource: Invalid resource ID {id}" (`d3d11.rs:1684`) -/
  | updateInvalidResource (id : Nat)
  /-- "MapResource: Invalid or unsupported resource ID {id}" (`d3d11.rs:1617`) -/
  | mapInvalidResource (id : Nat)
  /-- "Invalid RTV resource ID: {id}" (`d3d11.rs:927`) -/
  | invalidRtvId (id : Nat)
  /-- "Invalid DSV resource ID: {id}" (`d3d11.rs:938`) -/
  | invalidDsvId (id : Nat)
  deriving DecidableEq, Repr

/-- The error classifier of `BackendService::run_loop` (`main.rs:249-281`),
mapping a processing error to the `(error_code, error_data)` pair published
to the guest through `ControlRegion::set_error`.  The Rust code matches on
the error *message*: a `"SHADER_COMPILE:"` prefix (the id parses back
losslessly, `unwrap_or(0)` is never hit for a `u32` id), then the substrings
`"out of memory"` / `"OutOfMemory"` (which occur in no message produced by
the modelled paths, the native API being assumed healthy), and otherwise the
generic branch publishing `PVGPU_ERROR_INTERNAL`. -/
def classify_error (e : CmdError) : Nat × Nat :=
  match e with
  | .shaderCompile id => (PVGPU_ERROR_SHADER_COMPILE, id)
  | _ => (PVGPU_ERROR_INTERNAL, 0)

/-- `D3D11Renderer::create_texture2d` (`d3d11.rs:375-497`): dimension
validation, then the native creation (modelled as succeeding) and the slab
insert.  `D3D11_BIND_SHADER_RESOURCE = 0x8` (bit 3),
`D3D11_BIND_RENDER_TARGET = 0x20` (bit 5). -/
def create_texture2d (r : D3D11Renderer) (id width height format bindFlags : Nat)
    (_initialData : Option Bytes) : Except CmdError D3D11Renderer :=
  if width = 0 ∨ height = 0 then .error .invalidTextureDims
  else if 16384 < width ∨ 16384 < height then .error .textureDimsExceedMax
  else
    .ok { r with
          resources := slab_insert r.resources id
            (.texture2D width height format bindFlags
              (bindFlags.testBit 3) (bindFlags.testBit 5)) }

/-- `D3D11Renderer::create_buffer` (`d3d11.rs:500-584`): size validation,
then native creation (modelled as succeeding) and slab insert.  An
uninitialized DEFAULT-usage buffer's contents are undefined on the GPU; the
model fills with zeros. -/
def create_buffer (r : D3D11Renderer) (id size bindFlags : Nat)
    (initialData : Option Bytes) : Except CmdError D3D11Renderer :=
  if size = 0 then .error .invalidBufferSize
  else if 1073741824 < size then .error .bufferSizeExceedsMax
  else
    let contents := match initialData with
      | some d => d.take size ++ List.replicate (size - d.length) 0
      | none => List.replicate size 0
    .ok { r with resources := slab_insert r.resources id (.buffer contents bindFlags) }

/-- `D3D11Renderer::create_vertex_shader` (`d3d11.rs:587-629`). -/
def create_vertex_shader (r : D3D11Renderer) (id : Nat) (bytecode : Bytes) :
    Except CmdError D3D11Renderer :=
  if bytecode.isEmpty then .error .shaderBytecodeEmpty
  else .ok { r with resources := slab_insert r.resources id (.vertexShader bytecode) }

/-- `D3D11Renderer::create_pixel_shader` (`d3d11.rs:632-668`). -/
def create_pixel_shader (r : D3D11Renderer) (id : Nat) (bytecode : Bytes) :
    Except CmdError D3D11Renderer :=
  if bytecode.isEmpty then .error .shaderBytecodeEmpty
  else .ok { r with resources := slab_insert r.resources id .pixelShader }

/-- `D3D11Renderer::create_geometry_shader` (`d3d11.rs:671-708`). -/
def create_geometry_shader (r : D3D11Renderer) (id : Nat) (bytecode : Bytes) :
    Except CmdError D3D11Renderer :=
  if bytecode.isEmpty then .error .shaderBytecodeEmpty
  else .ok { r with resources := slab_insert r.resources id .geometryShader }

/-- `D3D11Renderer::create_hull_shader` (`d3d11.rs:710-747`). -/
def create_hull_shader (r : D3D11Renderer) (id : Nat) (bytecode : Bytes) :
    Except CmdError D3D11Renderer :=
  if bytecode.isEmpty then .error .shaderBytecodeEmpty
  else .ok { r with resources := slab_insert r.resources id .hullShader }

/-- `D3D11Renderer::create_domain_shader` (`d3d11.rs:749-786`). -/
def create_domain_shader (r : D3D11Renderer) (id : Nat) (bytecode : Bytes) :
    Except CmdError D3D11Renderer :=
  if bytecode.isEmpty then .error .shaderBytecodeEmpty
  else .ok { r with resources := slab_insert r.resources id .domainShader }

/-- `D3D11Renderer::create_compute_shader` (`d3d11.rs:788-825`). -/
def create_compute_shader (r : D3D11Renderer) (id : Nat) (bytecode : Bytes) :
    Except CmdError D3D11Renderer :=
  if bytecode.isEmpty then .error .shaderBytecodeEmpty
  else .ok { r with resources := slab_insert r.resources id .computeShader }

/-- `D3D11Renderer::destroy_resource` (`d3d11.rs:827-835`). -/
def destroy_resource (r : D3D11Renderer) (id : Nat) : D3D11Renderer :=
  { r with resources := slab_remove r.resources id }

/-- Result of `D3D11Renderer::map_resource` (`d3d11.rs:1720-1728`).  The Rust
struct holds raw COM pointers to the staging resource and the original; the
model keeps the staging byte contents inline and records the original by its
resource id (the copy-back target is the same underlying object as long as
the slot is not replaced between map and unmap, which holds in every
modelled scenario). -/
structure MapResult where
  dataPtrNull : Bool
  rowPitch : Nat
  depthPitch : Nat
  size : Nat
  stagingContents : List Nat
  originalBuffer : Option Nat
  originalTexture : Option Nat
  deriving DecidableEq, Repr

/-- `D3D11Renderer::map_resource` (`d3d11.rs:1481-1622`): for a DEFAULT-usage
resource a staging copy is created; for map types Read (1) and ReadWrite (3)
the source is copied into the staging before mapping.  The native staging
creation and `Map` are modelled as succeeding with a non-null data pointer.
For a texture the native row pitch of the 32-bpp staging is `width * 4` and
the reported size is `RowPitch * height` (`d3d11.rs:1600`); texel contents
are native-side and appear as zeros. -/
def map_resource (r : D3D11Renderer) (id _subresource mapType : Nat) :
    Except CmdError (D3D11Renderer × MapResult) :=
  match slab_get r.resources id with
  | some (.buffer contents _) =>
      let staging :=
        if mapType = 1 ∨ mapType = 3 then contents
        else List.replicate contents.length 0
      .ok (r, { dataPtrNull := false, rowPitch := 0, depthPitch := 0,
                size := contents.length, stagingContents := staging,
                originalBuffer := some id, originalTexture := none })
  | some (.texture2D width height _ _ _ _) =>
      let pitch := width * 4
      .ok (r, { dataPtrNull := false, rowPitch := pitch, depthPitch := 0,
                size := pitch * height,
                stagingContents := List.replicate (pitch * height) 0,
                originalBuffer := none, originalTexture := some id })
  | _ => .error (.mapInvalidResource id)

/-- `D3D11Renderer::unmap_resource` (`d3d11.rs:1626-1660`): unmaps the
staging resource and, for a write, copies staging → original via the stored
COM pointer.  Only a buffer copy-back is visible in the model (texture texel
contents are untracked); if the original slot no longer holds a buffer the
native copy lands in an object unreachable from the slab and the model state
is unchanged. -/
def unmap_resource (r : D3D11Renderer) (m : MapResult) (_subresource : Nat)
    (wasWrite : Bool) : D3D11Renderer :=
  if wasWrite then
    match m.originalBuffer with
    | some id =>
        match slab_get r.resources id with
        | some (.buffer _ bindFlags) =>
            { r with resources :=
                slab_insert r.resources id (.buffer m.stagingContents bindFlags) }
        | _ => r
    | none => r
  else r

structure UpdateBox where
  left : Nat
  top : Nat
  front : Nat
  right : Nat
  bottom : Nat
  back : Nat
  deriving DecidableEq, Repr

/-- Overwrite `contents[off ..]` with `src`, keeping the length of
`contents` (the model of writing through a mapped/updated GPU buffer). -/
def writeBytesAt (contents : List Nat) (off : Nat) (src : List Nat) : List Nat :=
  contents.take off ++ src.take (contents.length - off) ++
    contents.drop (off + src.length)

/-- `D3D11Renderer::update_subresource` (`d3d11.rs:1664-1716`): resolves the
id, then issues the native `UpdateSubresource`.  For a buffer the bytes land
at offset 0 (no box) or at `box.left` for `box.right - box.left` bytes; for
a texture the texel contents are untracked. -/
def update_subresource (r : D3D11Renderer) (id _subresource : Nat)
    (data : Bytes) (dstBox : Option UpdateBox) (_rowPitch _depthPitch : Nat) :
    Except CmdError D3D11Renderer :=
  match slab_get r.resources id with
  | some (.texture2D ..) => .ok r
  | some (.buffer contents bindFlags) =>
      let contents' := match dstBox with
        | some b => writeBytesAt contents b.left (data.take (b.right - b.left))
        | none => writeBytesAt contents 0 data
      .ok { r with resources := slab_insert r.resources id (.buffer contents' bindFlags) }
  | _ => .error (.updateInvalidResource id)

/-- `D3D11Renderer::set_render_targets` (`d3d11.rs:912-953`): resolves each
id (0 unbinds; a `Texture2D` contributes its optional RTV; a
`RenderTargetView` variant its view; anything else is an error), resolves
the optional DSV, then sets the native context state (untracked). -/
def set_render_targets (r : D3D11Renderer) (rtvIds : List Nat)
    (dsvId : Option Nat) : Except CmdError D3D11Renderer :=
  let rec resolve (ids : List Nat) : Except CmdError Unit :=
    match ids with
    | [] => .ok ()
    | id :: rest =>
        if id = 0 then resolve rest
        else match slab_get r.resources id with
          | some (.texture2D ..) => resolve rest
          | some .renderTargetView => resolve rest
          | _ => .error (.invalidRtvId id)
  match resolve rtvIds with
  | .error e => .error e
  | .ok _ =>
      match dsvId with
      | none => .ok r
      | some id =>
          if id = 0 then .ok r
          else match slab_get r.resources id with
            | some .depthStencilView => .ok r
            | _ => .error (.invalidDsvId id)

/-- `D3D11Renderer::copy_resource` (`d3d11.rs:1448-1472`): when both ids
resolve to a texture or buffer the native `CopyResource` runs; only a
buffer→buffer copy is visible in the model. -/
def copy_resource (r : D3D11Renderer) (dstId srcId : Nat) : D3D11Renderer :=
  match slab_get r.resources srcId, slab_get r.resources dstId with
  | some (.buffer srcContents _), some (.buffer _ dstFlags) =>
      { r with resources := slab_insert r.resources dstId (.buffer srcContents dstFlags) }
  | some _, some _ => r
  | _, _ => r

/-! ## Command processor (`command_processor.rs`)

`CommandProcessor` state and per-opcode handlers.  Handlers parse their
`repr(C)` payload from the command bytes at the struct's field offsets.
State setters whose only effect is a native context call leave the tracked
state unchanged.  An out-of-range slice index (`&arr[..n]` with `n` above
the array's capacity) is a Rust panic, rendered as the `panicked`
outcome. -/

structure CommandProcessorStats where
  commands_processed : Nat
  draw_calls : Nat
  presents : Nat
  resources_created : Nat
  resources_destroyed : Nat
  errors : Nat
  deriving DecidableEq, Repr

def CommandProcessorStats.default : CommandProcessorStats :=
  ⟨0, 0, 0, 0, 0, 0⟩

structure CommandProcessor where
  renderer : D3D11Renderer
  current_fence : Nat
  pending_present : Option (Nat × Nat)
  pending_resize : Option (Nat × Nat)
  active_maps : List ((Nat × Nat) × MapResult)
  stats : CommandProcessorStats
  deriving DecidableEq, Repr

/-- `CommandProcessor::new` (`command_processor.rs:40-49`). -/
def CommandProcessor.new (renderer : D3D11Renderer) : CommandProcessor :=
  ⟨renderer, 0, none, none, [], CommandProcessorStats.default⟩

inductive ProcOutcome (α : Type) where
  | ok (a : α)
  | err (e : CmdError)
  | panicked
  deriving DecidableEq, Repr

def liftR (st : CommandProcessor) (x : Except CmdError D3D11Renderer) :
    ProcOutcome CommandProcessor :=
  match x with
  | .ok r => .ok { st with renderer := r }
  | .error e => .err e

def maps_insert (maps : List ((Nat × Nat) × MapResult)) (key : Nat × Nat)
    (m : MapResult) : List ((Nat × Nat) × MapResult) :=
  (key, m) :: maps.filter (fun p => p.1 != key)

def maps_lookup (maps : List ((Nat × Nat) × MapResult)) (key : Nat × Nat) :
    Option MapResult :=
  (maps.find? (fun p => p.1 == key)).map Prod.snd

def maps_remove (maps : List ((Nat × Nat) × MapResult)) (key : Nat × Nat) :
    List ((Nat × Nat) × MapResult) :=
  maps.filter (fun p => p.1 != key)

/-- `handle_create_resource` (`command_processor.rs:130-270`).  Field
offsets of `CmdCreateResource`: resource_type@16, format@20, width@24,
height@28, depth@32, mip_levels@36, sample_count@40, sample_quality@44,
bind_flags@48, misc_flags@52, heap_offset@56, data_size@60; the resource id
is the header's (offset 8).  For a buffer, `width` is the size.  A shader
resource type with no usable initial data (zero size, zero offset or
out-of-bounds heap range) yields the `SHADER_COMPILE:{id}` error. -/
def handle_create_resource (st : CommandProcessor) (data heap : Bytes) :
    ProcOutcome CommandProcessor :=
  let resource_id := readU32 data 8
  let resource_type := readU32 data 16
  let format := readU32 data 20
  let width := readU32 data 24
  let height := readU32 data 28
  let bind_flags := readU32 data 48
  let heap_offset := readU32 data 56
  let data_size := readU32 data 60
  let initial_data : Option Bytes :=
    if 0 < data_size ∧ 0 < heap_offset then
      if heap_offset + data_size ≤ heap.length then
        some ((heap.drop heap_offset).take data_size)
      else none
    else none
  let shaderArm (create : D3D11Renderer → Nat → Bytes → Except CmdError D3D11Renderer) :
      ProcOutcome CommandProcessor :=
    match initial_data with
    | some bytecode =>
        match create st.renderer resource_id bytecode with
        | .ok r => .ok { st with renderer := r }
        | .error _ => .err (.shaderCompile resource_id)
    | none => .err (.shaderCompile resource_id)
  if resource_type = 2 then
    liftR st (create_texture2d st.renderer resource_id width height format
      bind_flags initial_data)
  else if resource_type = 4 then
    liftR st (create_buffer st.renderer resource_id width bind_flags initial_data)
  else if resource_type = 5 then shaderArm create_vertex_shader
  else if resource_type = 6 then shaderArm create_pixel_shader
  else if resource_type = 7 then shaderArm create_geometry_shader
  else if resource_type = 8 then shaderArm create_hull_shader
  else if resource_type = 9 then shaderArm create_domain_shader
  else if resource_type = 10 then shaderArm create_compute_shader
  else .ok st

/-- `handle_destroy_resource` (`command_processor.rs:272-276`): destroys the
header's resource id. -/
def handle_destroy_resource (st : CommandProcessor) (data : Bytes) :
    ProcOutcome CommandProcessor :=
  .ok { st with renderer := destroy_resource st.renderer (readU32 data 8) }

/-- `handle_open_resource` (`command_processor.rs:278-345`).
`CmdOpenResource`: shared_handle@16 (the original id), resource_type@20.
Aliases the new header id onto the original's native object: the Rust
AddRefs the COM pointer and registers it under the new id (via
`register_texture` / `register_buffer`, which re-query the descriptor); in
the model the slot's tracked fields are duplicated.  `register_texture`
stores `rtv = None, srv = None` (`d3d11.rs:864-874`). -/
def handle_open_resource (st : CommandProcessor) (data _heap : Bytes) :
    ProcOutcome CommandProcessor :=
  let new_id := readU32 data 8
  let original_id := readU32 data 16
  let resource_type := readU32 data 20
  match slab_get st.renderer.resources original_id with
  | none => .ok st
  | some _ =>
      match resource_type with
      | 2 =>
          match slab_get st.renderer.resources original_id with
          | some (.texture2D w h f b _ _) =>
              let slab := slab_insert st.renderer.resources new_id (.texture2D w h f b false false)
              .ok { st with renderer := { st.renderer with resources := slab } }
          | _ => .ok st
      | 4 =>
          match slab_get st.renderer.resources original_id with
          | some (.buffer contents bindFlags) =>
              let slab := slab_insert st.renderer.resources new_id (.buffer contents bindFlags)
              .ok { st with renderer := { st.renderer with resources := slab } }
          | _ => .ok st
      | _ => .ok st

/-- `handle_map_resource` (`command_processor.rs:347-381`).
`CmdMapResource`: resource_id@16, subresource@20, map_type@24, map_flags@28,
heap_offset@32.  For a read map (type 1 or 3) the code only logs — no byte
is written to the heap (the heap parameter is an immutable `&[u8]`; the
comment at `command_processor.rs:367-368` defers the copy to unmap, which
does not perform it either).  The map result is stored in `active_maps`. -/
def handle_map_resource (st : CommandProcessor) (data _heap : Bytes) :
    ProcOutcome CommandProcessor :=
  let resource_id := readU32 data 16
  let subresource := readU32 data 20
  let map_type := readU32 data 24
  match map_resource st.renderer resource_id subresource map_type with
  | .error e => .err e
  | .ok (r, m) =>
      let maps := maps_insert st.active_maps (resource_id, subresource) m
      .ok { st with renderer := r, active_maps := maps }

/-- `handle_unmap_resource` (`command_processor.rs:383-424`).
`CmdUnmapResource`: resource_id@16, subresource@20, heap_offset@24,
data_size@28.  Removes the active map; when `data_size > 0` and the heap
range is in bounds, copies `data_size` bytes from the heap into the staging
memory; `was_write` is `data_size > 0` (independently of the bounds check);
then the renderer unmaps and copies staging → original for writes.  The
heap itself is never written. -/
def handle_unmap_resource (st : CommandProcessor) (data heap : Bytes) :
    ProcOutcome CommandProcessor :=
  let resource_id := readU32 data 16
  let subresource := readU32 data 20
  let heap_offset := readU32 data 24
  let data_size := readU32 data 28
  let key := (resource_id, subresource)
  match maps_lookup st.active_maps key with
  | none => .ok st
  | some m =>
      let st := { st with active_maps := maps_remove st.active_maps key }
      let m :=
        if 0 < data_size ∧ !m.dataPtrNull then
          if heap_offset + data_size ≤ heap.length then
            let staging := writeBytesAt m.stagingContents 0 ((heap.drop heap_offset).take data_size)
            { m with stagingContents := staging }
          else m
        else m
      let was_write := 0 < data_size
      .ok { st with renderer := unmap_resource st.renderer m subresource was_write }

/-- `handle_update_resource` (`command_processor.rs:426-472`).
`CmdUpdateResource`: resource_id@16, subresource@20, heap_offset@24,
data_size@28, dst_x@32, dst_y@36, dst_z@40, width@44, height@48, depth@52,
row_pitch@56, depth_pitch@60.  Heap bounds are validated, then the
destination box is built when any dimension is nonzero and
`update_subresource` runs. -/
def handle_update_resource (st : CommandProcessor) (data heap : Bytes) :
    ProcOutcome CommandProcessor :=
  let resource_id := readU32 data 16
  let subresource := readU32 data 20
  let heap_offset := readU32 data 24
  let data_size := readU32 data 28
  let dst_x := readU32 data 32
  let dst_y := readU32 data 36
  let dst_z := readU32 data 40
  let width := readU32 data 44
  let height := readU32 data 48
  let depth := readU32 data 52
  let row_pitch := readU32 data 56
  let depth_pitch := readU32 data 60
  if heap.length < heap_offset + data_size then .err .updateHeapBounds
  else
    let src_data := (heap.drop heap_offset).take data_size
    let dst_box : Option UpdateBox :=
      if 0 < width ∨ 0 < height ∨ 0 < depth then
        some ⟨dst_x, dst_y, dst_z, dst_x + width, dst_y + height, dst_z + depth⟩
      else none
    liftR st (update_subresource st.renderer resource_id subresource src_data
      dst_box row_pitch depth_pitch)

/-- `handle_set_render_target` (`command_processor.rs:474-492`).
`CmdSetRenderTarget`: num_rtvs@16, dsv_id@20, rtv_ids@24 (capacity 8).  The
slice `&cmd.rtv_ids[..num_rtvs]` panics when `num_rtvs > 8`. -/
def handle_set_render_target (st : CommandProcessor) (data : Bytes) :
    ProcOutcome CommandProcessor :=
  let num_rtvs := readU32 data 16
  let dsv_id := readU32 data 20
  if 8 < num_rtvs then .panicked
  else
    let rtv_ids := (List.range num_rtvs).map (fun i => readU32 data (24 + 4 * i))
    let dsv := if dsv_id = 0 then none else some dsv_id
    liftR st (set_render_targets st.renderer rtv_ids dsv)

/-- `handle_set_viewport` (`command_processor.rs:494-514`): num_viewports@16,
inline array capacity 16; the slice panics when `num_viewports > 16`.  The
viewport floats only reach the native `RSSetViewports`. -/
def handle_set_viewport (st : CommandProcessor) (data : Bytes) :
    ProcOutcome CommandProcessor :=
  let num_viewports := readU32 data 16
  if 16 < num_viewports then .panicked else .ok st

/-- `handle_set_scissor` (`command_processor.rs:695-711`): num_rects@16,
inline array capacity 16; the slice panics when `num_rects > 16`. -/
def handle_set_scissor (st : CommandProcessor) (data : Bytes) :
    ProcOutcome CommandProcessor :=
  let num_rects := readU32 data 16
  if 16 < num_rects then .panicked else .ok st

/-- `handle_set_vertex_buffer` (`command_processor.rs:590-605`): the loop
count is clamped with `.min(16)`, so no count panics; the bindings only
reach the native `IASetVertexBuffers`. -/
def handle_set_vertex_buffer (st : CommandProcessor) (_data : Bytes) :
    ProcOutcome CommandProcessor :=
  .ok st

/-- `handle_set_sampler` (`command_processor.rs:642-652`): clamped with
`.min(16)`; native-only effect. -/
def handle_set_sampler (st : CommandProcessor) (_data : Bytes) :
    ProcOutcome CommandProcessor :=
  .ok st

/-- `handle_set_shader_resource` (`command_processor.rs:654-667`): clamped
with `.min(128)`; native-only effect. -/
def handle_set_shader_resource (st : CommandProcessor) (_data : Bytes) :
    ProcOutcome CommandProcessor :=
  .ok st

/-- `handle_fence` (`command_processor.rs:543-555`): `CmdFence.fence_value`
is a `u64` at offset 16; sets the engine's current-fence counter and
intentionally does not flush. -/
def handle_fence (st : CommandProcessor) (data : Bytes) :
    ProcOutcome CommandProcessor :=
  .ok { st with current_fence := readU64 data 16 }

/-- `handle_present` (`command_processor.rs:557-572`): backbuffer_id@16,
sync_interval@20; stores the pending present and flushes (native). -/
def handle_present (st : CommandProcessor) (data : Bytes) :
    ProcOutcome CommandProcessor :=
  .ok { st with pending_present := some (readU32 data 16, readU32 data 20) }

/-- `handle_resize_buffers` (`command_processor.rs:870-888`):
swapchain_id@16, width@20, height@24; only swapchain 0 with nonzero
dimensions records a pending resize, then flush (native). -/
def handle_resize_buffers (st : CommandProcessor) (data : Bytes) :
    ProcOutcome CommandProcessor :=
  let swapchain_id := readU32 data 16
  let width := readU32 data 20
  let height := readU32 data 24
  if swapchain_id = 0 ∧ 0 < width ∧ 0 < height then
    .ok { st with pending_resize := some (width, height) }
  else .ok st

/-- `handle_copy_resource` (`command_processor.rs:761-768`):
dst_resource_id@16, src_resource_id@20. -/
def handle_copy_resource (st : CommandProcessor) (data : Bytes) :
    ProcOutcome CommandProcessor :=
  .ok { st with renderer :=
    copy_resource st.renderer (readU32 data 16) (readU32 data 20) }

/-- `handle_create_shader` (`command_processor.rs:770-822`).
`CmdCreateShader`: shader_id@16, shader_type@20, bytecode_size@24,
bytecode_offset@28.  A zero bytecode size is only logged and the handler
returns `Ok(())`; an out-of-bounds heap range is an error; otherwise the
typed create runs (an unknown shader type is only logged). -/
def handle_create_shader (st : CommandProcessor) (data heap : Bytes) :
    ProcOutcome CommandProcessor :=
  let shader_id := readU32 data 16
  let shader_type := readU32 data 20
  let size := readU32 data 24
  let offset := readU32 data 28
  if size = 0 then .ok st
  else if heap.length < offset + size then .err .createShaderHeapBounds
  else
    let bytecode := (heap.drop offset).take size
    if shader_type = 0 then liftR st (create_vertex_shader st.renderer shader_id bytecode)
    else if shader_type = 1 then liftR st (create_pixel_shader st.renderer shader_id bytecode)
    else if shader_type = 2 then liftR st (create_geometry_shader st.renderer shader_id bytecode)
    else if shader_type = 3 then liftR st (create_hull_shader st.renderer shader_id bytecode)
    else if shader_type = 4 then liftR st (create_domain_shader st.renderer shader_id bytecode)
    else if shader_type = 5 then liftR st (create_compute_shader st.renderer shader_id bytecode)
    else .ok st

/-- `handle_destroy_shader` (`command_processor.rs:824-831`): shader_id@16. -/
def handle_destroy_shader (st : CommandProcessor) (data : Bytes) :
    ProcOutcome CommandProcessor :=
  .ok { st with renderer := destroy_resource st.renderer (readU32 data 16) }

/-- The opcodes `CommandProcessor::process_command` dispatches on
(`command_processor.rs:69-107`); anything else falls to the default arm,
which only logs a warning. -/
def supportedCommands : List Nat :=
  [PVGPU_CMD_CREATE_RESOURCE, PVGPU_CMD_DESTROY_RESOURCE, PVGPU_CMD_OPEN_RESOURCE,
   PVGPU_CMD_COPY_RESOURCE, PVGPU_CMD_CREATE_SHADER, PVGPU_CMD_DESTROY_SHADER,
   PVGPU_CMD_MAP_RESOURCE, PVGPU_CMD_UNMAP_RESOURCE, PVGPU_CMD_UPDATE_RESOURCE,
   PVGPU_CMD_SET_RENDER_TARGET, PVGPU_CMD_SET_VIEWPORT, PVGPU_CMD_SET_SCISSOR,
   PVGPU_CMD_SET_BLEND_STATE, PVGPU_CMD_SET_RASTERIZER_STATE,
   PVGPU_CMD_SET_DEPTH_STENCIL, PVGPU_CMD_SET_SHADER, PVGPU_CMD_SET_SAMPLER,
   PVGPU_CMD_SET_CONSTANT_BUFFER, PVGPU_CMD_SET_VERTEX_BUFFER,
   PVGPU_CMD_SET_INDEX_BUFFER, PVGPU_CMD_SET_INPUT_LAYOUT,
   PVGPU_CMD_SET_PRIMITIVE_TOPOLOGY, PVGPU_CMD_SET_SHADER_RESOURCE,
   PVGPU_CMD_DRAW, PVGPU_CMD_DRAW_INDEXED, PVGPU_CMD_DRAW_INSTANCED,
   PVGPU_CMD_DRAW_INDEXED_INSTANCED, PVGPU_CMD_DISPATCH,
   PVGPU_CMD_CLEAR_RENDER_TARGET, PVGPU_CMD_CLEAR_DEPTH_STENCIL,
   PVGPU_CMD_FENCE, PVGPU_CMD_PRESENT, PVGPU_CMD_FLUSH, PVGPU_CMD_RESIZE_BUFFERS]

/-- The per-opcode dispatch of `process_command`
(`command_processor.rs:69-111`).  Handlers whose only effect is a native
context call (blend/rasterizer/depth-stencil/shader/constant-buffer/
index-buffer/input-layout/topology setters, the five draw/dispatch calls,
the two clears, FLUSH) leave the tracked state unchanged; the setters that
can fail on an unknown id are warnings inside the renderer, and the clears
tolerate missing views (`d3d11.rs:983-996`, `1425-1446`), so none of them
produces an error.  Note WAIT_FENCE (0x0304) is *not* dispatched and falls
to the default arm. -/
def dispatchCommand (st : CommandProcessor) (ctype : Nat) (cmdData heap : Bytes) :
    ProcOutcome CommandProcessor :=
  if ctype = PVGPU_CMD_CREATE_RESOURCE then handle_create_resource st cmdData heap
  else if ctype = PVGPU_CMD_DESTROY_RESOURCE then handle_destroy_resource st cmdData
  else if ctype = PVGPU_CMD_OPEN_RESOURCE then handle_open_resource st cmdData heap
  else if ctype = PVGPU_CMD_COPY_RESOURCE then handle_copy_resource st cmdData
  else if ctype = PVGPU_CMD_CREATE_SHADER then handle_create_shader st cmdData heap
  else if ctype = PVGPU_CMD_DESTROY_SHADER then handle_destroy_shader st cmdData
  else if ctype = PVGPU_CMD_MAP_RESOURCE then handle_map_resource st cmdData heap
  else if ctype = PVGPU_CMD_UNMAP_RESOURCE then handle_unmap_resource st cmdData heap
  else if ctype = PVGPU_CMD_UPDATE_RESOURCE then handle_update_resource st cmdData heap
  else if ctype = PVGPU_CMD_SET_RENDER_TARGET then handle_set_render_target st cmdData
  else if ctype = PVGPU_CMD_SET_VIEWPORT then handle_set_viewport st cmdData
  else if ctype = PVGPU_CMD_SET_SCISSOR then handle_set_scissor st cmdData
  else if ctype = PVGPU_CMD_SET_VERTEX_BUFFER then handle_set_vertex_buffer st cmdData
  else if ctype = PVGPU_CMD_SET_SAMPLER then handle_set_sampler st cmdData
  else if ctype = PVGPU_CMD_SET_SHADER_RESOURCE then handle_set_shader_resource st cmdData
  else if ctype = PVGPU_CMD_FENCE then handle_fence st cmdData
  else if ctype = PVGPU_CMD_PRESENT then handle_present st cmdData
  else if ctype = PVGPU_CMD_RESIZE_BUFFERS then handle_resize_buffers st cmdData
  else if ctype ∈ supportedCommands then .ok st
  else .ok st

/-- The statistics bookkeeping after a successful dispatch
(`command_processor.rs:113-125`): `commands_processed` always increments;
creates, destroys, the five draw kinds and presents bump their counters. -/
def updateStats (st : CommandProcessor) (ctype : Nat) : CommandProcessor :=
  let s := st.stats
  let s := { s with commands_processed := s.commands_processed + 1 }
  let s :=
    if ctype = PVGPU_CMD_CREATE_RESOURCE then
      { s with resources_created := s.resources_created + 1 }
    else if ctype = PVGPU_CMD_DESTROY_RESOURCE then
      { s with resources_destroyed := s.resources_destroyed + 1 }
    else if ctype = PVGPU_CMD_DRAW ∨ ctype = PVGPU_CMD_DRAW_INDEXED ∨
        ctype = PVGPU_CMD_DRAW_INSTANCED ∨ ctype = PVGPU_CMD_DRAW_INDEXED_INSTANCED ∨
        ctype = PVGPU_CMD_DISPATCH then
      { s with draw_calls := s.draw_calls + 1 }
    else if ctype = PVGPU_CMD_PRESENT then
      { s with presents := s.presents + 1 }
    else s
  { st with stats := s }

/-- `CommandProcessor::process_command` (`command_processor.rs:54-128`).
Checks the 16-byte header fits, parses it, checks the declared
`command_size` against the available data, dispatches on the opcode over
the truncated record `data[..command_size]`, updates statistics, and
returns the declared size as the consumed byte count.  There is no check
that `command_size ≥ 16`. -/
def process_command (st : CommandProcessor) (data heap : Bytes) :
    ProcOutcome (CommandProcessor × Nat) :=
  if data.length < PVGPU_CMD_HEADER_SIZE then .err .cmdTooSmall
  else
    let command_type := readU32 data 0
    let command_size := readU32 data 4
    if data.length < command_size then .err .cmdSizeExceeds
    else
      let cmdData := data.take command_size
      match dispatchCommand st command_type cmdData heap with
      | .panicked => .panicked
      | .err e => .err e
      | .ok st' => .ok (updateStats st' command_type, command_size)

/-! ## Presentation pipeline (`presentation.rs`)

Only the state `PresentationPipeline::resize` touches is modelled: the
configured dimensions, the tearing configuration, the optional swapchain
(presence only), the backbuffer RTV, and the shared texture with its
exported handle.  Freshly created native objects (RTV after `ResizeBuffers`,
recreated shared texture and its cross-process handle) are given identities
from a monotone allocation counter `nextNativeId`, so "the exported handle
changes" is observable.  Native calls are recorded as actions and modelled
as succeeding. -/

structure PresentationPipeline where
  width : Nat
  height : Nat
  buffer_count : Nat
  allow_tearing : Bool
  tearing_supported : Bool
  hasSwapchain : Bool
  backbuffer_rtv : Option Nat
  shared_texture : Option Nat
  shared_handle : Option Nat
  nextNativeId : Nat
  deriving DecidableEq, Repr

inductive PresAction where
  /-- native `IDXGISwapChain::ResizeBuffers(buffer_count, w, h, format, flags)` -/
  | resizeBuffers (bufferCount w h : Nat) (tearingFlag : Bool)
  /-- native `CreateRenderTargetView` on the new backbuffer -/
  | createRenderTargetView
  /-- `create_shared_texture` (`presentation.rs:319-364`): native texture plus
  a fresh `CreateSharedHandle` export -/
  | createSharedTexture
  deriving DecidableEq, Repr

/-- `PresentationPipeline::resize` (`presentation.rs:507-556`): early return
when the dimensions are unchanged; otherwise update the config, drop the
RTV, resize the swapchain preserving the tearing flag and recreate the RTV
(when windowed), and recreate the shared texture and exported handle (when
headless/dual).  Returns the new state together with the native actions
performed. -/
def PresentationPipeline.resize (p : PresentationPipeline) (w h : Nat) :
    PresentationPipeline × List PresAction :=
  if w = p.width ∧ h = p.height then (p, [])
  else
    let p := { p with width := w, height := h, backbuffer_rtv := none }
    let (p, swapActs) :=
      if p.hasSwapchain then
        ({ p with backbuffer_rtv := some p.nextNativeId, nextNativeId := p.nextNativeId + 1 },
         [PresAction.resizeBuffers p.buffer_count w h (p.allow_tearing && p.tearing_supported),
          PresAction.createRenderTargetView])
      else (p, [])
    let (p, sharedActs) :=
      if p.shared_texture.isSome then
        ({ p with shared_texture := some p.nextNativeId,
                  shared_handle := some p.nextNativeId,
                  nextNativeId := p.nextNativeId + 1 },
         [PresAction.createSharedTexture])
      else (p, [])
    (p, swapActs ++ sharedActs)

/-- `PresentationPipeline::dimensions` (`presentation.rs:586-588`). -/
def PresentationPipeline.dimensions (p : PresentationPipeline) : Nat × Nat :=
  (p.width, p.height)

/-! ## Service loop (`main.rs:154-371`)

A transition system over the session state.  The host's drain iteration
(`main.rs:217-289`) is rendered as steps: a successful `process_command`
advances the consumer by the consumed count and then runs the coalesced
fence-IRQ block (`main.rs:230-242`); a failed one publishes an error and
leaves the counters alone; the guest may concurrently publish more bytes
(monotone `producer_ptr`, ring and heap contents under its control).  The
ghost fields `fence_stores` and `irq_sends` record, in order, the values
release-stored to `host_fence_completed` by `complete_fence` and the fence
value current at each IRQ request sent. -/

structure BackendSession where
  producer : Nat
  consumer : Nat
  ring : Bytes
  heap : Bytes
  proc : CommandProcessor
  last_irq_fence : Nat
  host_fence_completed : Nat
  fence_stores : List Nat
  irq_sends : List Nat

/-- `SharedMemory::complete_fence` (`shmem.rs:197-201`): the (only)
host-side store to `host_fence_completed`. -/
def complete_fence (s : BackendSession) (v : Nat) : BackendSession :=
  { s with host_fence_completed := v, fence_stores := s.fence_stores ++ [v] }

/-- The fence-IRQ block of the drain (`main.rs:230-242`): only when the
engine's current fence strictly exceeds `last_irq_fence` does the loop call
`complete_fence` and then send a single IRQ request. -/
def fenceIrqStep (s : BackendSession) : BackendSession :=
  let fence := s.proc.current_fence
  if s.last_irq_fence < fence then
    let s := complete_fence s fence
    { s with last_irq_fence := fence, irq_sends := s.irq_sends ++ [fence] }
  else s

inductive ServiceStep : BackendSession → BackendSession → Prop where
  /-- one successful drain iteration (`main.rs:217-247`) -/
  | drainOk (s : BackendSession) (slice : Bytes) (pending : Nat)
      (st' : CommandProcessor) (consumed : Nat)
      (hread : read_pending_commands s.producer s.consumer s.ring = some (slice, pending))
      (hne : slice ≠ [])
      (hproc : process_command s.proc slice s.heap = .ok (st', consumed)) :
      ServiceStep s
        (fenceIrqStep
          { s with consumer := advance_consumer s.consumer consumed, proc := st' })
  /-- a failed drain iteration (`main.rs:249-282`): the error is classified
  and published; the consumer is not advanced -/
  | drainErr (s : BackendSession) (slice : Bytes) (pending : Nat) (e : CmdError)
      (hread : read_pending_commands s.producer s.consumer s.ring = some (slice, pending))
      (hne : slice ≠ [])
      (hproc : process_command s.proc slice s.heap = .err e) :
      ServiceStep s s
  /-- the service loop consumes a pending present (`main.rs:245-247`, `293-318`) -/
  | takePresent (s : BackendSession) :
      ServiceStep s { s with proc := { s.proc with pending_present := none } }
  /-- the service loop consumes a pending resize (`main.rs:321-352`) -/
  | takeResize (s : BackendSession) :
      ServiceStep s { s with proc := { s.proc with pending_resize := none } }
  /-- the guest publishes work: `producer_ptr` is monotone, ring and heap
  contents are guest-owned (spec §5), sizes fixed after the handshake -/
  | guestPublish (s : BackendSession) (producer' : Nat) (ring' heap' : Bytes)
      (hmono : s.producer ≤ producer')
      (hring : ring'.length = s.ring.length)
      (hheap : heap'.length = s.heap.length) :
      ServiceStep s { s with producer := producer', ring := ring', heap := heap' }

/-- Reachability along service-loop steps. -/
def SessionReachable (s0 s : BackendSession) : Prop :=
  Relation.ReflTransGen ServiceStep s0 s

/-! ## Supporting lemmas -/

/-- A successful `process_command` consumed exactly the declared
`command_size`, which the decoder checked against the available data. -/
theorem process_command_ok_le {st : CommandProcessor} {data heap : Bytes}
    {st' : CommandProcessor} {n : Nat}
    (h : process_command st data heap = .ok (st', n)) : n ≤ data.length := by
  unfold process_command at h
  dsimp only at h
  split at h
  · exact absurd h (by simp)
  · split at h
    · exact absurd h (by simp)
    · rename_i hsize
      split at h
      · exact absurd h (by simp)
      · exact absurd h (by simp)
      · simp only [ProcOutcome.ok.injEq, Prod.mk.injEq] at h
        omega

/-- Characterization of a successful `read_pending_commands`: the pending
count is `producer - consumer`, the counters are strictly ordered, and the
returned slice fits inside the pending window. -/
theorem read_pending_commands_some {producer consumer : Nat} {ring : Bytes}
    {slice : Bytes} {pending : Nat}
    (h : read_pending_commands producer consumer ring = some (slice, pending)) :
    pending = producer - consumer ∧ consumer < producer ∧ slice.length ≤ pending := by
  unfold read_pending_commands pending_bytes at h
  dsimp only at h
  split at h
  · exact absurd h (by simp)
  · rename_i hne
    simp only [Option.some.injEq, Prod.mk.injEq] at h
    obtain ⟨hs, hp⟩ := h
    subst hp hs
    refine ⟨rfl, by omega, ?_⟩
    simp only [List.length_take]
    omega

theorem fenceIrqStep_consumer (s : BackendSession) :
    (fenceIrqStep s).consumer = s.consumer := by
  unfold fenceIrqStep complete_fence
  dsimp only
  split <;> rfl

theorem fenceIrqStep_producer (s : BackendSession) :
    (fenceIrqStep s).producer = s.producer := by
  unfold fenceIrqStep complete_fence
  dsimp only
  split <;> rfl

/-- One service-loop step keeps `consumer_ptr ≤ producer_ptr` and never
decreases the consumer. -/
theorem serviceStep_consumer_bound {s s' : BackendSession}
    (hinv : s.consumer ≤ s.producer) (hstep : ServiceStep s s') :
    s'.consumer ≤ s'.producer ∧ s.consumer ≤ s'.consumer := by
  cases hstep with
  | drainOk slice pending st' consumed hread hne hproc =>
      obtain ⟨hpend, hlt, hlen⟩ := read_pending_commands_some hread
      have hcons := process_command_ok_le hproc
      rw [fenceIrqStep_consumer, fenceIrqStep_producer]
      unfold advance_consumer
      constructor
      · simp only
        omega
      · simp only
        omega
  | drainErr => exact ⟨hinv, le_refl _⟩
  | takePresent => exact ⟨hinv, le_refl _⟩
  | takeResize => exact ⟨hinv, le_refl _⟩
  | guestPublish producer' ring' heap' hmono hring hheap =>
      exact ⟨le_trans hinv hmono, le_refl _⟩

/-! ## Concrete processor states and wire records used in the proofs -/

def emptyRenderer : D3D11Renderer := ⟨[]⟩

def proc0 : CommandProcessor := CommandProcessor.new emptyRenderer

/-- `proc0` after one command whose opcode matches no statistics arm. -/
def procAfterPlain : CommandProcessor :=
  { proc0 with stats := { CommandProcessorStats.default with commands_processed := 1 } }

/-- A 16-byte record declaring `size_total = 8 < 16` with an unknown
opcode. -/
def recUndersized8 : Bytes := encodeU32s [0x9999, 8, 0, 0]

/-- A 16-byte record declaring `size_total = 0` with an unknown opcode. -/
def recUndersized0 : Bytes := encodeU32s [0x9999, 0, 0, 0]

/-- A well-formed unknown-opcode record of declared size 16. -/
def recUnknown16 : Bytes := encodeU32s [0x9999, 16, 0, 0]

/-- `CmdSetRenderTarget` (56 bytes) declaring `num_rtvs = 9`, one past the
8-entry inline `rtv_ids` array. -/
def recSetRenderTarget9 : Bytes :=
  encodeU32s ([PVGPU_CMD_SET_RENDER_TARGET, 56, 0, 0, 9, 0] ++ List.replicate 8 0)

/-- `CmdSetViewport` (404 bytes) declaring `num_viewports = 17`, one past
the 16-entry inline array. -/
def recSetViewport17 : Bytes :=
  encodeU32s ([PVGPU_CMD_SET_VIEWPORT, 404, 0, 0, 17] ++ List.replicate 96 0)

/-- `CmdSetScissor` (276 bytes) declaring `num_rects = 17`, one past the
16-entry inline array. -/
def recSetScissor17 : Bytes :=
  encodeU32s ([PVGPU_CMD_SET_SCISSOR, 276, 0, 0, 17] ++ List.replicate 64 0)

/-- `CmdCreateResource` (64 bytes) for a Texture2D (type 2) with
`width = 0`, `height = 1080`, id 7, BGRA-ish format 87,
`bind_flags = RENDER_TARGET`. -/
def recCreateTexZeroWidth : Bytes :=
  encodeU32s [PVGPU_CMD_CREATE_RESOURCE, 64, 7, 0, 2, 87, 0, 1080, 1, 1, 1, 0, 32, 0, 0, 0]

/-- `CmdCreateShader` (32 bytes) for a vertex shader, id 9, with
`bytecode_size = 0`. -/
def recCreateShaderZero : Bytes :=
  encodeU32s [PVGPU_CMD_CREATE_SHADER, 32, 0, 0, 9, 0, 0, 0]

/-! Seed scenario 4 of the spec (map-write round-trip), as concrete wire
records: create buffer id 5 of 64 bytes; UPDATE it from heap offset H = 0
with a 64-byte pattern; MAP id 5 subresource 0 with type Read at
H2 = 100; UNMAP with `(heap_offset, data_size) = (100, 64)`. -/

def pattern64 : Bytes := List.replicate 64 171

/-- Heap: the pattern at offset 0, zeros from offset 64 through 163; the
read-map window `H2 = 100 .. 164` holds zeros. -/
def heapRoundTrip : Bytes := pattern64 ++ List.replicate 100 0

def recCreateBuf64 : Bytes :=
  encodeU32s [PVGPU_CMD_CREATE_RESOURCE, 64, 5, 0, 4, 0, 64, 0, 0, 0, 0, 0, 0, 0, 0, 0]

def recUpdateBuf : Bytes :=
  encodeU32s [PVGPU_CMD_UPDATE_RESOURCE, 68, 0, 0, 5, 0, 0, 64, 0, 0, 0, 0, 0, 0, 0, 0, 0]

def recMapRead : Bytes :=
  encodeU32s [PVGPU_CMD_MAP_RESOURCE, 52, 0, 0, 5, 0, 1, 0, 100, 0, 0, 0, 0]

def recUnmap : Bytes :=
  encodeU32s [PVGPU_CMD_UNMAP_RESOURCE, 32, 0, 0, 5, 0, 100, 64]

/-- Processing a batch within one drain: `run_loop` (`main.rs:217-289`)
passes the same immutable heap view (`shmem.resource_heap()`, a `&[u8]`) to
every `process_command` call; no host code path writes the heap
(`SharedMemory::resource_heap_mut` has no caller in the repository). -/
def processSequence (st : CommandProcessor) (cmds : List Bytes) (heap : Bytes) :
    ProcOutcome CommandProcessor :=
  match cmds with
  | [] => .ok st
  | c :: rest =>
      match process_command st c heap with
      | .ok (st', _) => processSequence st' rest heap
      | .err e => .err e
      | .panicked => .panicked

theorem getD_take_of_lt (data : Bytes) (n i : Nat) (h : i < n) :
    (data.take n).getD i 0 = data.getD i 0 := by
  rw [List.getD_eq_getElem?_getD, List.getD_eq_getElem?_getD, List.getElem?_take_of_lt h]

/-- Reading a `u32` field of the record `data[..n]` equals reading it from
`data` when the field lies inside the declared size. -/
theorem readU32_take (data : Bytes) (n k : Nat) (h : k + 4 ≤ n) :
    readU32 (data.take n) k = readU32 data k := by
  unfold readU32 readByte
  rw [getD_take_of_lt _ _ _ (by omega), getD_take_of_lt _ _ _ (by omega),
    getD_take_of_lt _ _ _ (by omega), getD_take_of_lt _ _ _ (by omega)]

/-- After the two framing checks pass, `process_command` is the dispatch on
the header opcode over the record truncated to its declared size, followed
by the statistics update. -/
theorem process_command_eq_dispatch (st : CommandProcessor) (data heap : Bytes)
    (hlen : PVGPU_CMD_HEADER_SIZE ≤ data.length)
    (hsize : readU32 data 4 ≤ data.length) :
    process_command st data heap =
      match dispatchCommand st (readU32 data 0) (data.take (readU32 data 4)) heap with
      | .panicked => .panicked
      | .err e => .err e
      | .ok st' => .ok (updateStats st' (readU32 data 0), readU32 data 4) := by
  unfold process_command
  dsimp only
  rw [if_neg (by omega), if_neg (by omega)]

/-- C3 (amended). For every 64-byte `CREATE_RESOURCE` record that declares a
Texture2D with `width = 0`, `height = 0`, or a dimension above 16384, or a
Buffer with size 0 or above 1 GiB, processing rejects the command with an
error, and the `(error_code, error_data)` pair the service loop publishes
for it is `(INTERNAL = 12, 0)` — not `INVALID_PARAMETER = 6`, which no code
path assigns. -/
theorem create_resource_invalid_params_publish_internal
    (st : CommandProcessor) (data heap : Bytes)
    (hct : readU32 data 0 = PVGPU_CMD_CREATE_RESOURCE)
    (hcs : readU32 data 4 = 64)
    (hlen : 64 ≤ data.length)
    (hbad : (readU32 data 16 = 2 ∧
              (readU32 data 24 = 0 ∨ readU32 data 28 = 0 ∨
               16384 < readU32 data 24 ∨ 16384 < readU32 data 28)) ∨
            (readU32 data 16 = 4 ∧
              (readU32 data 24 = 0 ∨ 1073741824 < readU32 data 24))) :
    ∃ e, process_command st data heap = .err e ∧
      classify_error e = (PVGPU_ERROR_INTERNAL, 0) := by
  have hkey : ∀ E : CmdError,
      handle_create_resource st (data.take 64) heap = .err E →
      process_command st data heap = .err E := by
    intro E hE
    rw [process_command_eq_dispatch st data heap (le_trans (by decide) hlen) (by omega), hct, hcs]
    rw [show dispatchCommand st PVGPU_CMD_CREATE_RESOURCE (data.take 64) heap =
      handle_create_resource st (data.take 64) heap from rfl]
    rw [hE]
  rcases hbad with ⟨htype, hdims⟩ | ⟨htype, hsz⟩
  · by_cases h0 : readU32 data 24 = 0 ∨ readU32 data 28 = 0
    · refine ⟨.invalidTextureDims, hkey _ ?_, rfl⟩
      unfold handle_create_resource
      dsimp only
      rw [readU32_take data 64 16 (by omega), htype, if_pos rfl]
      unfold create_texture2d
      rw [readU32_take data 64 24 (by omega), readU32_take data 64 28 (by omega),
        if_pos h0]
      rfl
    · have h1 : 16384 < readU32 data 24 ∨ 16384 < readU32 data 28 := by tauto
      refine ⟨.textureDimsExceedMax, hkey _ ?_, rfl⟩
      unfold handle_create_resource
      dsimp only
      rw [readU32_take data 64 16 (by omega), htype, if_pos rfl]
      unfold create_texture2d
      rw [readU32_take data 64 24 (by omega), readU32_take data 64 28 (by omega),
        if_neg h0, if_pos h1]
      rfl
  · by_cases h0 : readU32 data 24 = 0
    · refine ⟨.invalidBufferSize, hkey _ ?_, rfl⟩
      unfold handle_create_resource
      dsimp only
      rw [readU32_take data 64 16 (by omega), htype, if_neg (by decide), if_pos rfl]
      unfold create_buffer
      rw [readU32_take data 64 24 (by omega), if_pos h0]
      rfl
    · have h1 : 1073741824 < readU32 data 24 := by tauto
      refine ⟨.bufferSizeExceedsMax, hkey _ ?_, rfl⟩
      unfold handle_create_resource
      dsimp only
      rw [readU32_take data 64 16 (by omega), htype, if_neg (by decide), if_pos rfl]
      unfold create_buffer
      rw [readU32_take data 64 24 (by omega), if_neg h0, if_pos h1]
      rfl

/-- C5 (amended). Zero-length shader bytecode splits by path: a 64-byte
`CREATE_RESOURCE` record with a shader resource type (5–10) and
`data_size = 0` fails with `SHADER_COMPILE:{resource_id}`, which the service
loop publishes as `(SHADER_COMPILE = 4, resource_id)`; but a 32-byte
`CREATE_SHADER` record with `bytecode_size = 0` is skipped with only a
warning (`command_processor.rs:784-787`) — it succeeds and no error is
reported. -/
theorem shader_zero_bytecode_split (st : CommandProcessor) (data heap : Bytes) :
    (readU32 data 0 = PVGPU_CMD_CREATE_RESOURCE → readU32 data 4 = 64 →
      64 ≤ data.length → 5 ≤ readU32 data 16 → readU32 data 16 ≤ 10 →
      readU32 data 60 = 0 →
      process_command st data heap = .err (.shaderCompile (readU32 data 8)) ∧
      classify_error (.shaderCompile (readU32 data 8)) =
        (PVGPU_ERROR_SHADER_COMPILE, readU32 data 8)) ∧
    (readU32 data 0 = PVGPU_CMD_CREATE_SHADER → readU32 data 4 = 32 →
      32 ≤ data.length → readU32 data 24 = 0 →
      process_command st data heap = .ok (updateStats st PVGPU_CMD_CREATE_SHADER, 32)) := by
  constructor
  · intro hct hcs hlen ht5 ht10 hds0
    refine ⟨?_, rfl⟩
    rw [process_command_eq_dispatch st data heap (le_trans (by decide) hlen) (by omega),
      hct, hcs]
    rw [show dispatchCommand st PVGPU_CMD_CREATE_RESOURCE (data.take 64) heap =
      handle_create_resource st (data.take 64) heap from rfl]
    have hh : handle_create_resource st (data.take 64) heap =
        .err (.shaderCompile (readU32 data 8)) := by
      unfold handle_create_resource
      dsimp only
      rw [readU32_take data 64 16 (by omega), readU32_take data 64 8 (by omega),
        readU32_take data 64 60 (by omega), hds0]
      set x := readU32 data 16 with hx
      interval_cases x <;> simp
    rw [hh]
  · intro hct hcs hlen hsz0
    rw [process_command_eq_dispatch st data heap (le_trans (by decide) hlen) (by omega),
      hct, hcs]
    rw [show dispatchCommand st PVGPU_CMD_CREATE_SHADER (data.take 32) heap =
      handle_create_shader st (data.take 32) heap from rfl]
    have hh : handle_create_shader st (data.take 32) heap = .ok st := by
      unfold handle_create_shader
      dsimp only
      rw [readU32_take data 32 24 (by omega), hsz0, if_pos rfl]
    rw [hh]

/-- C9. A record whose opcode is outside the supported command set and whose
declared `size_total` fits the available data is only logged: the processor
state is unchanged except for the `commands_processed` counter (in
particular no renderer state is touched), and the returned consumed count is
the declared `size_total`, by which `run_loop` then advances the consumer
pointer. -/
theorem unknown_opcode_warns_and_consumes_declared_size
    (st : CommandProcessor) (data heap : Bytes)
    (hunk : readU32 data 0 ∉ supportedCommands)
    (hlen : PVGPU_CMD_HEADER_SIZE ≤ data.length)
    (hsize : readU32 data 4 ≤ data.length) :
    process_command st data heap =
      .ok ({ st with stats :=
        { st.stats with commands_processed := st.stats.commands_processed + 1 } },
        readU32 data 4) := by
  have hne : ∀ c ∈ supportedCommands, readU32 data 0 ≠ c := fun c hc he => hunk (he ▸ hc)
  rw [process_command_eq_dispatch st data heap hlen hsize]
  have hd : dispatchCommand st (readU32 data 0) (data.take (readU32 data 4)) heap = .ok st := by
    unfold dispatchCommand
    rw [if_neg (hne _ (by decide)), if_neg (hne _ (by decide)), if_neg (hne _ (by decide)),
      if_neg (hne _ (by decide)), if_neg (hne _ (by decide)), if_neg (hne _ (by decide)),
      if_neg (hne _ (by decide)), if_neg (hne _ (by decide)), if_neg (hne _ (by decide)),
      if_neg (hne _ (by decide)), if_neg (hne _ (by decide)), if_neg (hne _ (by decide)),
      if_neg (hne _ (by decide)), if_neg (hne _ (by decide)), if_neg (hne _ (by decide)),
      if_neg (hne _ (by decide)), if_neg (hne _ (by decide)), if_neg (hne _ (by decide)),
      if_neg hunk]
  rw [hd]
  unfold updateStats
  dsimp only
  rw [if_neg (hne _ (by decide)), if_neg (hne _ (by decide)),
    if_neg (by rintro (h | h | h | h | h) <;> exact hne _ (by decide) h),
    if_neg (hne _ (by decide))]

/-- C9 witness: a concrete unknown-opcode record (0x9999, declared size 16)
is consumed whole with only the command counter bumped. -/
theorem unknown_opcode_warns_witness :
    readU32 recUnknown16 0 ∉ supportedCommands ∧
      process_command proc0 recUnknown16 [] =
        .ok ({ proc0 with stats :=
          { proc0.stats with commands_processed := proc0.stats.commands_processed + 1 } },
          readU32 recUnknown16 4) :=
  ⟨by decide,
   unknown_opcode_warns_and_consumes_declared_size proc0 recUnknown16 []
     (by decide) (by decide) (by decide)⟩

/-- C8. With a nonzero ring, `read_pending_commands` returns exactly the
contiguous slice starting at `consumer mod R` of length
`min (producer - consumer) (R - consumer mod R)` — never crossing the wrap
point — together with the pending count, and returns nothing when the
counters are equal. -/
theorem read_pending_commands_contiguous_window
    (producer consumer : Nat) (ring : Bytes) (hR : 0 < ring.length) :
    (consumer < producer →
      read_pending_commands producer consumer ring =
        some ((ring.drop (consumer % ring.length)).take
          (min (producer - consumer) (ring.length - consumer % ring.length)),
          producer - consumer) ∧
      ((ring.drop (consumer % ring.length)).take
          (min (producer - consumer) (ring.length - consumer % ring.length))).length =
        min (producer - consumer) (ring.length - consumer % ring.length)) ∧
    (producer = consumer → read_pending_commands producer consumer ring = none) := by
  constructor
  · intro hlt
    constructor
    · unfold read_pending_commands pending_bytes
      dsimp only
      rw [if_neg (by omega)]
    · have hmod : consumer % ring.length < ring.length := Nat.mod_lt _ hR
      simp only [List.length_take, List.length_drop]
      omega
  · intro heq
    unfold read_pending_commands pending_bytes
    dsimp only
    rw [if_pos (by omega)]

/-- C8 witness: ring of 8 bytes, `consumer = 3`, `producer = 10`: the window
is the 5 bytes from offset 3 to the end of the ring. -/
theorem read_pending_commands_window_witness :
    (3 : Nat) < 10 ∧
      read_pending_commands 10 3 [0, 1, 2, 3, 4, 5, 6, 7] =
        some ((([0, 1, 2, 3, 4, 5, 6, 7] : Bytes).drop (3 % 8)).take (min (10 - 3) (8 - 3 % 8)),
          10 - 3) :=
  ⟨by decide,
   ((read_pending_commands_contiguous_window 10 3 [0, 1, 2, 3, 4, 5, 6, 7] (by decide)).1
     (by decide)).1⟩

/-- The fence bookkeeping invariant of the service loop, relative to the
initial `host_fence_completed` value `h0`: the stored fence values are
strictly increasing, all bounded by `last_irq_fence`, IRQ sends pair up
one-for-one (in order) with stores, and `host_fence_completed` is the last
stored value (or still `h0` when nothing was stored). -/
def FenceInv (h0 : Nat) (s : BackendSession) : Prop :=
  List.Chain' (· < ·) s.fence_stores ∧
    (∀ v ∈ s.fence_stores, v ≤ s.last_irq_fence) ∧
    s.irq_sends = s.fence_stores ∧
    (s.fence_stores.getLast? = some s.host_fence_completed ∨
      (s.fence_stores = [] ∧ s.host_fence_completed = h0))

theorem fenceInv_step (h0 : Nat) {s s' : BackendSession}
    (hstep : ServiceStep s s') (hinv : FenceInv h0 s) : FenceInv h0 s' := by
  obtain ⟨hchain, hbound, hirq, hlast⟩ := hinv
  cases hstep with
  | drainOk slice pending st' consumed hread hne hproc =>
      unfold fenceIrqStep complete_fence
      dsimp only
      split
      · rename_i hgt
        refine ⟨?_, ?_, ?_, ?_⟩
        · rw [List.chain'_append]
          refine ⟨hchain, List.chain'_singleton _, ?_⟩
          intro x hx y hy
          simp only [List.head?_cons, Option.mem_def, Option.some.injEq] at hy
          subst hy
          have hxmem := List.mem_of_mem_getLast? hx
          exact lt_of_le_of_lt (hbound x hxmem) hgt
        · intro v hv
          rcases List.mem_append.mp hv with hv | hv
          · exact le_of_lt (lt_of_le_of_lt (hbound v hv) hgt)
          · simp only [List.mem_singleton] at hv
            exact le_of_eq hv
        · rw [hirq]
        · left
          exact List.getLast?_concat _
      · exact ⟨hchain, hbound, hirq, hlast⟩
  | drainErr slice pending e hread hne hproc => exact ⟨hchain, hbound, hirq, hlast⟩
  | takePresent => exact ⟨hchain, hbound, hirq, hlast⟩
  | takeResize => exact ⟨hchain, hbound, hirq, hlast⟩
  | guestPublish producer' ring' heap' hmono hring hheap =>
      exact ⟨hchain, hbound, hirq, hlast⟩

/-- C7. Along every service-loop execution started with empty store/IRQ
logs, the values stored into `host_fence_completed` by `complete_fence` form
a strictly increasing sequence (once set it never decreases), exactly one
IRQ request is sent per store — only when the engine's fence strictly
exceeds `last_irq_fence`, the store preceding the send — and
`host_fence_completed` is the last stored value. -/
theorem fence_irq_coalesced_and_monotone (s0 s : BackendSession)
    (hstores : s0.fence_stores = []) (hirq : s0.irq_sends = [])
    (hreach : SessionReachable s0 s) :
    List.Chain' (· < ·) s.fence_stores ∧
      s.irq_sends = s.fence_stores ∧
      (s.fence_stores ≠ [] → s.fence_stores.getLast? = some s.host_fence_completed) := by
  have key : FenceInv s0.host_fence_completed s := by
    induction hreach with
    | refl =>
        refine ⟨?_, ?_, ?_, Or.inr ⟨hstores, rfl⟩⟩
        · rw [hstores]; exact List.chain'_nil
        · intro v hv; rw [hstores] at hv; cases hv
        · rw [hstores, hirq]
    | tail _ hstep ih => exact fenceInv_step _ hstep ih
  refine ⟨key.1, key.2.2.1, fun hne => ?_⟩
  rcases key.2.2.2 with h | ⟨h, _⟩
  · exact h
  · exact absurd h hne

/-- C6. In every session state reachable from a state with
`consumer_ptr ≤ producer_ptr`, the inequality still holds and the consumer
never decreased along the way; moreover in any drain iteration the consumed
count returned by a successful `process_command` never exceeds the pending
byte count reported by `read_pending_commands`. -/
theorem consumer_monotone_le_producer (s0 s : BackendSession)
    (hinit : s0.consumer ≤ s0.producer) (hreach : SessionReachable s0 s) :
    (s.consumer ≤ s.producer ∧ s0.consumer ≤ s.consumer) ∧
      ∀ (t : BackendSession) (slice : Bytes) (pending : Nat)
        (st' : CommandProcessor) (consumed : Nat),
        read_pending_commands t.producer t.consumer t.ring = some (slice, pending) →
        process_command t.proc slice t.heap = .ok (st', consumed) →
        consumed ≤ pending := by
  constructor
  · induction hreach with
    | refl => exact ⟨hinit, le_refl _⟩
    | tail _ hstep ih =>
        obtain ⟨hle, hmono⟩ := ih
        obtain ⟨hle', hmono'⟩ := serviceStep_consumer_bound hle hstep
        exact ⟨hle', le_trans hmono hmono'⟩
  · intro t slice pending st' consumed hread hproc
    obtain ⟨hpend, hlt, hlen⟩ := read_pending_commands_some hread
    have := process_command_ok_le hproc
    omega

/-! Concrete one-step sessions used by the witnesses of the service-loop
theorems. -/

def sess0 : BackendSession :=
  { producer := 16, consumer := 0, ring := recUnknown16, heap := [], proc := proc0,
    last_irq_fence := 0, host_fence_completed := 0, fence_stores := [], irq_sends := [] }

def sess1 : BackendSession :=
  fenceIrqStep { sess0 with consumer := advance_consumer sess0.consumer 16, proc := procAfterPlain }

/-- C6 witness: one concrete drain step over a 16-byte record advances the
consumer from 0 to 16 = producer. -/
theorem consumer_monotone_witness :
    sess0.consumer ≤ sess0.producer ∧
      ((sess1.consumer ≤ sess1.producer ∧ sess0.consumer ≤ sess1.consumer) ∧
        ∀ (t : BackendSession) (slice : Bytes) (pending : Nat)
          (st' : CommandProcessor) (consumed : Nat),
          read_pending_commands t.producer t.consumer t.ring = some (slice, pending) →
          process_command t.proc slice t.heap = .ok (st', consumed) →
          consumed ≤ pending) :=
  ⟨by decide,
   consumer_monotone_le_producer sess0 sess1 (by decide)
     (Relation.ReflTransGen.single
       (ServiceStep.drainOk sess0 recUnknown16 16 procAfterPlain 16
         (by decide) (by decide) (by decide)))⟩

/-- A 24-byte `FENCE` record carrying fence value 42. -/
def fenceRec : Bytes := encodeU32s [PVGPU_CMD_FENCE, 24, 0, 0, 42, 0]

def fenceSess0 : BackendSession :=
  { producer := 24, consumer := 0, ring := fenceRec, heap := [], proc := proc0,
    last_irq_fence := 0, host_fence_completed := 0, fence_stores := [], irq_sends := [] }

def fenceProc1 : CommandProcessor := { procAfterPlain with current_fence := 42 }

def fenceSess1 : BackendSession :=
  fenceIrqStep
    { fenceSess0 with consumer := advance_consumer fenceSess0.consumer 24, proc := fenceProc1 }

/-- C7 witness: draining one concrete FENCE(42) record stores 42 once and
sends one IRQ. -/
theorem fence_irq_coalesced_witness :
    fenceSess0.fence_stores = [] ∧ fenceSess0.irq_sends = [] ∧
      (List.Chain' (· < ·) fenceSess1.fence_stores ∧
        fenceSess1.irq_sends = fenceSess1.fence_stores ∧
        (fenceSess1.fence_stores ≠ [] →
          fenceSess1.fence_stores.getLast? = some fenceSess1.host_fence_completed)) :=
  ⟨rfl, rfl,
   fence_irq_coalesced_and_monotone fenceSess0 fenceSess1 rfl rfl
     (Relation.ReflTransGen.single
       (ServiceStep.drainOk fenceSess0 fenceRec 24 fenceProc1 24
         (by decide) (by decide) (by decide)))⟩

theorem resize_noop_of_eq (p : PresentationPipeline) (w h : Nat)
    (hw : w = p.width) (hh : h = p.height) :
    PresentationPipeline.resize p w h = (p, []) := by
  unfold PresentationPipeline.resize
  rw [if_pos ⟨hw, hh⟩]

/-- Whatever branch `resize` takes, the resulting configured dimensions are
the requested ones. -/
theorem resize_result_dims (p : PresentationPipeline) (w h : Nat) :
    ((PresentationPipeline.resize p w h).1).width = w ∧
      ((PresentationPipeline.resize p w h).1).height = h := by
  unfold PresentationPipeline.resize
  dsimp only
  split
  · rename_i hc
    exact ⟨hc.1.symm, hc.2.symm⟩
  · split <;> split <;> exact ⟨rfl, rfl⟩

/-- C10. `resize` is a no-op at the current configured dimensions, and an
immediately repeated `resize(w, h)` returns the state unchanged with no
native action: the swapchain resize, RTV recreation and shared-texture
recreation happen at most once for the pair of calls. -/
theorem resize_unchanged_noop_and_idempotent :
    (∀ p : PresentationPipeline,
      PresentationPipeline.resize p p.width p.height = (p, [])) ∧
    (∀ (p : PresentationPipeline) (w h : Nat),
      PresentationPipeline.resize (PresentationPipeline.resize p w h).1 w h =
        ((PresentationPipeline.resize p w h).1, [])) := by
  constructor
  · intro p
    exact resize_noop_of_eq p _ _ rfl rfl
  · intro p w h
    have hd := resize_result_dims p w h
    exact resize_noop_of_eq _ w h hd.1.symm hd.2.symm

/-- C1. A record whose header declares `size_total = 8` (below the 16-byte
header) with an unknown opcode is *not* treated as an error: it is
processed successfully, the record is consumed, and the returned count 8 is
what `run_loop` passes to `advance_consumer` — so the consumer pointer does
advance by `size_total`.  With `size_total = 0` the record also succeeds,
returning 0, so the consumer pointer never moves and the drain re-reads the
same bytes forever.  `process_command` checks `data.len() < 16` and
`command_size > data.len()` but never `command_size < 16`
(`command_processor.rs:54-67`). -/
theorem undersized_size_total_consumed_not_fatal :
    process_command proc0 recUndersized8 [] = .ok (procAfterPlain, 8) ∧
      process_command proc0 recUndersized0 [] = .ok (procAfterPlain, 0) ∧
      advance_consumer 0 0 = 0 ∧
      readU32 recUndersized8 4 = 8 ∧ (8 : Nat) < PVGPU_CMD_HEADER_SIZE := by
  refine ⟨by decide, by decide, rfl, by decide, by decide⟩

/-- C4. `SET_RENDER_TARGET` with `num_rtvs = 9` (capacity 8), `SET_VIEWPORT`
with `num_viewports = 17` and `SET_SCISSOR` with `num_rects = 17`
(capacity 16) each panic at the out-of-range slice `&arr[..n]`
(`command_processor.rs:483`, `:500`, `:699`) instead of returning a
`Result`; each record's declared size fits its data exactly. -/
theorem overlong_count_fields_panic :
    process_command proc0 recSetRenderTarget9 [] = .panicked ∧
      process_command proc0 recSetViewport17 [] = .panicked ∧
      process_command proc0 recSetScissor17 [] = .panicked := by
  refine ⟨by decide, by decide, by decide⟩

/-- C3 counterexample: a concrete `CREATE_RESOURCE` Texture2D record with
`width = 0` is rejected, but the error pair the service loop publishes is
`(INTERNAL = 12, 0)`, not `INVALID_PARAMETER = 6`: the creation-failure
classifier of `run_loop` (`main.rs:254-281`) has no `InvalidParameter`
branch. -/
theorem create_zero_width_not_invalid_parameter :
    process_command proc0 recCreateTexZeroWidth [] = .err .invalidTextureDims ∧
      classify_error .invalidTextureDims = (PVGPU_ERROR_INTERNAL, 0) ∧
      (classify_error .invalidTextureDims).1 ≠ PVGPU_ERROR_INVALID_PARAMETER := by
  refine ⟨by decide, by decide, by decide⟩

/-- C3 witness: the amended theorem applied to the zero-width texture record
and to a zero-size buffer record. -/
theorem create_resource_invalid_params_witness :
    readU32 recCreateTexZeroWidth 0 = PVGPU_CMD_CREATE_RESOURCE ∧
      (∃ e, process_command proc0 recCreateTexZeroWidth [] = .err e ∧
        classify_error e = (PVGPU_ERROR_INTERNAL, 0)) :=
  ⟨by decide,
   create_resource_invalid_params_publish_internal proc0 recCreateTexZeroWidth []
     (by decide) (by decide) (by decide) (Or.inl ⟨by decide, Or.inl (by decide)⟩)⟩

/-- C5 counterexample: a concrete `CREATE_SHADER` record with
`bytecode_size = 0` succeeds — no `ShaderCompile` error is reported for this
shader-creation command carrying zero bytecode, refuting the claim for the
CREATE_SHADER path. -/
theorem create_shader_zero_bytecode_no_error :
    process_command proc0 recCreateShaderZero [] = .ok (procAfterPlain, 32) := by
  decide

/-- `CmdCreateResource` (64 bytes) for a VertexShader (type 5), id 9, with
no initial data (`data_size = 0`). -/
def recCreateShaderVS0 : Bytes :=
  encodeU32s [PVGPU_CMD_CREATE_RESOURCE, 64, 9, 0, 5, 0, 0, 0, 0, 0, 0, 0, 0, 0, 0, 0]

/-- C5 witness: the amended theorem applied to a `CREATE_RESOURCE` vertex
shader (type 5) record with `data_size = 0` (id 9) and to the concrete
`CREATE_SHADER` record with `bytecode_size = 0`. -/
theorem shader_zero_bytecode_split_witness :
    (process_command proc0 recCreateShaderVS0 [] =
        .err (.shaderCompile (readU32 recCreateShaderVS0 8)) ∧
      classify_error (.shaderCompile (readU32 recCreateShaderVS0 8)) =
        (PVGPU_ERROR_SHADER_COMPILE, readU32 recCreateShaderVS0 8)) ∧
      process_command proc0 recCreateShaderZero [] =
        .ok (updateStats proc0 PVGPU_CMD_CREATE_SHADER, 32) :=
  ⟨(shader_zero_bytecode_split proc0 recCreateShaderVS0 []).1
     (by decide) (by decide) (by decide) (by decide) (by decide) (by decide),
   (shader_zero_bytecode_split proc0 recCreateShaderZero []).2
     (by decide) (by decide) (by decide) (by decide)⟩

/-! Seed scenario 4 as one session: the ring holds the four records
back-to-back (216 bytes) and the service loop drains them in four
iterations. -/

def ringRT : Bytes := recCreateBuf64 ++ recUpdateBuf ++ recMapRead ++ recUnmap

def sessRT0 : BackendSession :=
  { producer := 216, consumer := 0, ring := ringRT, heap := heapRoundTrip, proc := proc0,
    last_irq_fence := 0, host_fence_completed := 0, fence_stores := [], irq_sends := [] }

def statsRT1 : CommandProcessorStats :=
  { CommandProcessorStats.default with commands_processed := 1, resources_created := 1 }

def procRT1 : CommandProcessor :=
  { proc0 with
    renderer := ⟨[(5, .buffer (List.replicate 64 0) 0)]⟩
    stats := statsRT1 }

def procRT2 : CommandProcessor :=
  { procRT1 with
    renderer := ⟨[(5, .buffer pattern64 0)]⟩
    stats := { statsRT1 with commands_processed := 2 } }

def procRT3 : CommandProcessor :=
  { procRT2 with
    active_maps := [((5, 0), ⟨false, 0, 0, 64, pattern64, some 5, none⟩)]
    stats := { statsRT1 with commands_processed := 3 } }

def procRT4 : CommandProcessor :=
  { procRT3 with
    renderer := ⟨[(5, .buffer (List.replicate 64 0) 0)]⟩
    active_maps := []
    stats := { statsRT1 with commands_processed := 4 } }

def sessRT1 : BackendSession :=
  fenceIrqStep { sessRT0 with consumer := advance_consumer sessRT0.consumer 64, proc := procRT1 }

def sessRT2 : BackendSession :=
  fenceIrqStep { sessRT1 with consumer := advance_consumer sessRT1.consumer 68, proc := procRT2 }

def sessRT3 : BackendSession :=
  fenceIrqStep { sessRT2 with consumer := advance_consumer sessRT2.consumer 52, proc := procRT3 }

def sessRT4 : BackendSession :=
  fenceIrqStep { sessRT3 with consumer := advance_consumer sessRT3.consumer 32, proc := procRT4 }

/-- C2. The map-write round trip of spec seed scenario 4: UPDATE writes the
64-byte pattern into buffer 5, MAP(Read) at `H2 = 100` then UNMAP completes
without error — yet the heap is byte-for-byte unchanged, so the bytes at
`H2` are still zeros and differ from the UPDATEd pattern.  No handler can
write the heap: `handle_map_resource` only logs on a read map (the comment
at `command_processor.rs:367-373` defers the copy to unmap, which never
performs it), `handle_unmap_resource` copies heap → staging only, and no
code calls `SharedMemory::resource_heap_mut`.  Worse, UNMAP treats
`data_size > 0` as a write-back, so the stale heap zeros clobber the
UPDATEd pattern in the buffer itself. -/
theorem map_read_unmap_never_writes_heap :
    SessionReachable sessRT0 sessRT4 ∧
      sessRT4.heap = sessRT0.heap ∧
      ((sessRT4.heap.drop 100).take 64 = List.replicate 64 0 ∧
        pattern64 = List.replicate 64 171 ∧
        (sessRT4.heap.drop 100).take 64 ≠ pattern64) ∧
      slab_get sessRT4.proc.renderer.resources 5 =
        some (.buffer (List.replicate 64 0) 0) ∧
      processSequence proc0 [recCreateBuf64, recUpdateBuf, recMapRead, recUnmap]
        heapRoundTrip = .ok procRT4 := by
  refine ⟨?_, rfl, ⟨by decide, by decide, by decide⟩, by decide, by decide⟩
  refine Relation.ReflTransGen.tail (Relation.ReflTransGen.tail
    (Relation.ReflTransGen.tail (Relation.ReflTransGen.single
      (ServiceStep.drainOk sessRT0 ringRT 216 procRT1 64
        (by decide) (by decide) (by decide)))
      (ServiceStep.drainOk sessRT1 (ringRT.drop 64) 152 procRT2 68
        (by decide) (by decide) (by decide)))
    (ServiceStep.drainOk sessRT2 (ringRT.drop 132) 84 procRT3 52
      (by decide) (by decide) (by decide)))
    (ServiceStep.drainOk sessRT3 (ringRT.drop 184) 32 procRT4 32
      (by decide) (by decide) (by decide))
